import Mathlib

/-!
Verification of the geometry, operation and symbolic-computation layers of
an image-analysis model library (files `Graphics.py`, `Operation.py`,
`nion/swift/model/Symbolic.py`), shallowly embedded in Lean.

Python floats are modelled as exact rationals (`ℚ`) where the code only
adds, multiplies, divides and compares, and as real numbers (`ℝ`) where it
takes square roots.  Python exceptions are modelled with `Except PyError`.
Points and sizes are pairs in the code's `(y, x)` / `(h, w)` axis order,
written as Lean pairs whose first component is the code's index `[0]`.
-/

namespace NionSwift

/-- Python exceptions raised by the embedded code paths. -/
inductive PyError
  | nameError (name : String)
  | keyError (key : String)
  | typeError (msg : String)
  | valueError (msg : String)
  | zeroDivisionError
  deriving DecidableEq, Repr

/-! ## Graphics.py: geometry utilities -/

/-- A point or size: pair of rationals, first component is index `[0]`. -/
abbrev RPoint := ℚ × ℚ

/-- A rectangle `(origin, size)` as used throughout `Graphics.py`. -/
abbrev Rect := RPoint × RPoint

/-- `Graphics.fit_to_aspect_ratio(rect, aspect_ratio)` translated from the
source: branch on `rect[1][1] > aspect_ratio * rect[1][0]`. -/
def fit_to_aspect_ratio (rect : Rect) (aspect_ratio : ℚ) : Rect :=
  if rect.2.2 > aspect_ratio * rect.2.1 then
    -- height will fill entire frame
    let new_size : RPoint := (rect.2.1, rect.2.1 * aspect_ratio)
    let new_origin : RPoint := (rect.1.1, rect.1.2 + (1/2) * (rect.2.2 - new_size.2))
    (new_origin, new_size)
  else
    let new_size : RPoint := (rect.2.2 / aspect_ratio, rect.2.2)
    let new_origin : RPoint := (rect.1.1 + (1/2) * (rect.2.1 - new_size.1), rect.1.2)
    (new_origin, new_size)

/-- The spec's branch formula for `fit_to_aspect_ratio`, written from the
spec's words: when `rect.size.y > aspect_ratio * rect.size.x` (reading
`size.y` as the second tuple component, as the spec's own branch test
does), the result has size `(rect.size.x, rect.size.x * aspect_ratio)` and
is centered along the second axis; otherwise it has size
`(rect.size.y / aspect_ratio, rect.size.y)` and is centered along the
first axis. -/
def fitToAspectRatioSpec (rect : Rect) (aspect_ratio : ℚ) : Rect :=
  if rect.2.2 > aspect_ratio * rect.2.1 then
    ((rect.1.1, rect.1.2 + (rect.2.2 - rect.2.1 * aspect_ratio) / 2),
     (rect.2.1, rect.2.1 * aspect_ratio))
  else
    ((rect.1.1 + (rect.2.1 - rect.2.2 / aspect_ratio) / 2, rect.1.2),
     (rect.2.2 / aspect_ratio, rect.2.2))

/-- `RectangleGraphic.__set_bounds` translated from the source: the stored
(normalized) bounds.  A negative height flips the first origin component; a
negative width flips the second. -/
def rectangleGraphic_set_bounds (bounds : Rect) : Rect :=
  let bounds :=
    if bounds.2.1 < 0 then  -- height is negative
      ((bounds.1.1 + bounds.2.1, bounds.1.2), (-bounds.2.1, bounds.2.2))
    else bounds
  let bounds :=
    if bounds.2.2 < 0 then  -- width is negative
      ((bounds.1.1, bounds.1.2 + bounds.2.2), (bounds.2.1, -bounds.2.2))
    else bounds
  bounds

/-- `EllipseGraphic.__set_bounds` translated from the source; its body is
identical to the rectangle setter's. -/
def ellipseGraphic_set_bounds (bounds : Rect) : Rect :=
  let bounds :=
    if bounds.2.1 < 0 then  -- height is negative
      ((bounds.1.1 + bounds.2.1, bounds.1.2), (-bounds.2.1, bounds.2.2))
    else bounds
  let bounds :=
    if bounds.2.2 < 0 then  -- width is negative
      ((bounds.1.1, bounds.1.2 + bounds.2.2), (bounds.2.1, -bounds.2.2))
    else bounds
  bounds

/-- C1: the claim's concrete example is false on the code:
`fit_to_aspect_ratio(((0,0),(10,20)), 0.5)` returns the rectangle
`((0, 7.5), (10, 5))`, whose size is `(10, 5)`, not `(5, 10)` as the
claim states. -/
theorem C1_example_counterexample :
    fit_to_aspect_ratio ((0, 0), (10, 20)) (1/2) = ((0, 15/2), (10, 5)) ∧
      (fit_to_aspect_ratio ((0, 0), (10, 20)) (1/2)).2 ≠ ((5 : ℚ), (10 : ℚ)) := by
  constructor
  · norm_num [fit_to_aspect_ratio]
  · norm_num [fit_to_aspect_ratio]

/-- C1 (amended): for every rectangle and positive aspect ratio,
`fit_to_aspect_ratio` returns exactly the spec's branch formula, and the
result is centered within `rect`: in the first branch the first origin
component is unchanged and the second-axis centers coincide, in the second
branch symmetrically.  The claim's concrete example returns size
`(10.0, 5.0)` (height 10, width 5), not `(5.0, 10.0)`. -/
theorem C1_fit_to_aspect_ratio_matches_spec (rect : Rect) (aspect_ratio : ℚ)
    (hpos : 0 < aspect_ratio) :
    fit_to_aspect_ratio rect aspect_ratio = fitToAspectRatioSpec rect aspect_ratio ∧
      ((rect.2.2 > aspect_ratio * rect.2.1 →
        (fit_to_aspect_ratio rect aspect_ratio).2 = (rect.2.1, rect.2.1 * aspect_ratio) ∧
        (fit_to_aspect_ratio rect aspect_ratio).1.1 = rect.1.1 ∧
        (fit_to_aspect_ratio rect aspect_ratio).1.2 +
            (fit_to_aspect_ratio rect aspect_ratio).2.2 / 2 =
          rect.1.2 + rect.2.2 / 2) ∧
      (¬ rect.2.2 > aspect_ratio * rect.2.1 →
        (fit_to_aspect_ratio rect aspect_ratio).2 = (rect.2.2 / aspect_ratio, rect.2.2) ∧
        (fit_to_aspect_ratio rect aspect_ratio).1.2 = rect.1.2 ∧
        (fit_to_aspect_ratio rect aspect_ratio).1.1 +
            (fit_to_aspect_ratio rect aspect_ratio).2.1 / 2 =
          rect.1.1 + rect.2.1 / 2)) := by
  clear hpos
  refine ⟨?_, fun hgt => ?_, fun hle => ?_⟩
  · simp only [fit_to_aspect_ratio, fitToAspectRatioSpec]
    split_ifs with h
    · exact Prod.ext_iff.mpr ⟨Prod.ext_iff.mpr ⟨rfl, by dsimp only; ring⟩, rfl⟩
    · exact Prod.ext_iff.mpr ⟨Prod.ext_iff.mpr ⟨by dsimp only; ring, rfl⟩, rfl⟩
  · simp only [fit_to_aspect_ratio]
    rw [if_pos hgt]
    exact ⟨rfl, rfl, by dsimp only; ring⟩
  · simp only [fit_to_aspect_ratio]
    rw [if_neg hle]
    exact ⟨rfl, rfl, by dsimp only; ring⟩

/-- Witness for C1 at the (corrected) concrete example. -/
theorem C1_fit_to_aspect_ratio_matches_spec_witness :
    (0 : ℚ) < 1/2 ∧
      fit_to_aspect_ratio ((0, 0), (10, 20)) (1/2) =
        fitToAspectRatioSpec ((0, 0), (10, 20)) (1/2) :=
  ⟨by norm_num, (C1_fit_to_aspect_ratio_matches_spec ((0, 0), (10, 20)) (1/2) (by norm_num)).1⟩

/-- C2: a bounds value with a negative height or width assigned to a
`RectangleGraphic` or `EllipseGraphic` is stored with non-negative size
components and the origin adjusted along the corresponding axis so the
described axis intervals (hence the region) are unchanged; both setters
store the same normalization. -/
theorem C2_set_bounds_normalizes (b : Rect) (hneg : b.2.1 < 0 ∨ b.2.2 < 0) :
    0 ≤ (rectangleGraphic_set_bounds b).2.1 ∧
    0 ≤ (rectangleGraphic_set_bounds b).2.2 ∧
    (min (rectangleGraphic_set_bounds b).1.1
        ((rectangleGraphic_set_bounds b).1.1 + (rectangleGraphic_set_bounds b).2.1) =
      min b.1.1 (b.1.1 + b.2.1)) ∧
    (max (rectangleGraphic_set_bounds b).1.1
        ((rectangleGraphic_set_bounds b).1.1 + (rectangleGraphic_set_bounds b).2.1) =
      max b.1.1 (b.1.1 + b.2.1)) ∧
    (min (rectangleGraphic_set_bounds b).1.2
        ((rectangleGraphic_set_bounds b).1.2 + (rectangleGraphic_set_bounds b).2.2) =
      min b.1.2 (b.1.2 + b.2.2)) ∧
    (max (rectangleGraphic_set_bounds b).1.2
        ((rectangleGraphic_set_bounds b).1.2 + (rectangleGraphic_set_bounds b).2.2) =
      max b.1.2 (b.1.2 + b.2.2)) ∧
    ellipseGraphic_set_bounds b = rectangleGraphic_set_bounds b := by
  clear hneg
  obtain ⟨⟨oy, ox⟩, hgt, wid⟩ := b
  dsimp only [rectangleGraphic_set_bounds, ellipseGraphic_set_bounds]
  split_ifs with h1 h2 h2 <;>
    refine ⟨by dsimp only; linarith, by dsimp only; linarith, ?_, ?_, ?_, ?_, rfl⟩ <;>
    dsimp only <;> simp only [min_def, max_def] <;> split_ifs <;> linarith

/-- Witness for C2 at the claim's concrete example:
`((0.5, 0.5), (-0.2, 0.3))` is stored as `((0.3, 0.5), (0.2, 0.3))`. -/
theorem C2_set_bounds_normalizes_witness :
    (((-2 : ℚ)/10 < 0 ∨ (3 : ℚ)/10 < 0) ∧
      0 ≤ (rectangleGraphic_set_bounds ((1/2, 1/2), (-2/10, 3/10))).2.1) ∧
      rectangleGraphic_set_bounds ((1/2, 1/2), (-2/10, 3/10)) =
        ((3/10, 1/2), (2/10, 3/10)) :=
  ⟨⟨Or.inl (by norm_num),
    (C2_set_bounds_normalizes ((1/2, 1/2), (-2/10, 3/10)) (Or.inl (by norm_num))).1⟩,
   by norm_num [rectangleGraphic_set_bounds]⟩

/-! ## Symbolic.py: ComputationVariable value (de)serialization -/

/-- Python values that flow through a `ComputationVariable`'s persistent
`value`/`value_default`/`value_min`/`value_max` properties.  Floats are
exact rationals; a complex number carries its real and imaginary parts;
`tuple2` is the stored `(real, imag)` float pair. -/
inductive PyValue
  | bool (b : Bool)
  | int (n : ℤ)
  | float (x : ℚ)
  | complex (re im : ℚ)
  | str (s : String)
  | tuple2 (a b : ℚ)
  deriving DecidableEq, Repr

/-- Python's builtin `bool(...)` (truthiness) on the value forms above.
Modelled from the spec's coercion table (`boolean→bool`); exact on every
constructor. -/
def pyTruthy : PyValue → Bool
  | .bool b => b
  | .int n => n != 0
  | .float x => x != 0
  | .complex re im => !(re == 0 && im == 0)
  | .str s => s != ""
  | .tuple2 _ _ => true

/-- Truncation toward zero, as Python's `int()` on a float. -/
def pyTruncInt (x : ℚ) : ℤ := if 0 ≤ x then ⌊x⌋ else ⌈x⌉

/-- Python's builtin `int(...)`.  Modelled from the spec's coercion table
(`integral→int`); numeric-string parsing is not modelled (no repository
path feeds strings to it), and non-numeric inputs raise as in Python. -/
def pyIntOf : PyValue → Except PyError ℤ
  | .bool b => .ok (if b then 1 else 0)
  | .int n => .ok n
  | .float x => .ok (pyTruncInt x)
  | .str s => .error (.valueError s)
  | .complex _ _ => .error (.typeError "int() of complex")
  | .tuple2 _ _ => .error (.typeError "int() of tuple")

/-- Python's builtin `float(...)`.  Modelled from the spec's coercion
table (`real→float`); numeric-string parsing is not modelled. -/
def pyFloatOf : PyValue → Except PyError ℚ
  | .bool b => .ok (if b then 1 else 0)
  | .int n => .ok n
  | .float x => .ok x
  | .str s => .error (.valueError s)
  | .complex _ _ => .error (.typeError "float() of complex")
  | .tuple2 _ _ => .error (.typeError "float() of tuple")

/-- Python's builtin `complex(...)` on a single argument, returning the
`(real, imag)` parts.  Modelled from the spec's coercion table
(`complex→(real, imag)` pair); complex-literal string parsing is not
modelled. -/
def pyComplexOf : PyValue → Except PyError (ℚ × ℚ)
  | .bool b => .ok (if b then 1 else 0, 0)
  | .int n => .ok (n, 0)
  | .float x => .ok (x, 0)
  | .complex re im => .ok (re, im)
  | .str s => .error (.valueError s)
  | .tuple2 _ _ => .error (.typeError "complex() of tuple")

/-- Python's builtin `str(...)`.  Exact on string inputs, the only inputs
the repository's reader/writer pass to it for `value_type` `"string"`; the
rendering of the other forms is a placeholder. -/
def pyStrOf : PyValue → String
  | .str s => s
  | .bool b => if b then "True" else "False"
  | .int n => toString n
  | .float x => toString x
  | .complex _ _ => "<complex>"
  | .tuple2 _ _ => "<tuple>"

/-- `ComputationVariable.__value_writer` translated from the source,
restricted to the single stored entry for the property's key: `prev` is
the stored entry before the write, the result the entry after.  The
source's successive `if` statements are an if-chain here: at most one can
match since `value_type` is a single value.  A `None` value writes
nothing. -/
def computationVariable_value_writer (value_type : Option String)
    (prev : Option PyValue) (value : Option PyValue) : Except PyError (Option PyValue) :=
  match value with
  | none => .ok prev
  | some v =>
    if value_type = some "boolean" then .ok (some (.bool (pyTruthy v)))
    else if value_type = some "integral" then do
      let n ← pyIntOf v
      .ok (some (.int n))
    else if value_type = some "real" then do
      let x ← pyFloatOf v
      .ok (some (.float x))
    else if value_type = some "complex" then do
      let z ← pyComplexOf v
      .ok (some (.tuple2 z.1 z.2))
    else if value_type = some "string" then .ok (some (.str (pyStrOf v)))
    else .ok prev

/-- `ComputationVariable.__value_reader` translated from the source:
`raw_value` is the raw stored entry (`properties.get(...)`); a missing or
`None` entry, or an unknown `value_type`, reads as `None`.  For
`value_type` `"complex"` the source calls `complex(*raw_value)`, which
requires the stored pair. -/
def computationVariable_value_reader (value_type : Option String)
    (raw_value : Option PyValue) : Except PyError (Option PyValue) :=
  match raw_value with
  | none => .ok none
  | some rv =>
    if value_type = some "boolean" then .ok (some (.bool (pyTruthy rv)))
    else if value_type = some "integral" then do
      let n ← pyIntOf rv
      .ok (some (.int n))
    else if value_type = some "real" then do
      let x ← pyFloatOf rv
      .ok (some (.float x))
    else if value_type = some "complex" then
      match rv with
      | .tuple2 a b => .ok (some (.complex a b))
      | _ => .error (.typeError "complex(*raw_value)")
    else if value_type = some "string" then .ok (some (.str (pyStrOf rv)))
    else .ok none

/-- A value is of the Python type corresponding to a scalar `value_type`. -/
def valueMatches (value_type : String) (v : PyValue) : Prop :=
  (value_type = "boolean" ∧ ∃ b, v = .bool b) ∨
  (value_type = "integral" ∧ ∃ n, v = .int n) ∨
  (value_type = "real" ∧ ∃ x, v = .float x) ∨
  (value_type = "complex" ∧ ∃ re im, v = .complex re im) ∨
  (value_type = "string" ∧ ∃ s, v = .str s)

/-- C8: for each scalar `value_type` and every value of the corresponding
type, writing through `ComputationVariable.__value_writer` and reading
back through `__value_reader` yields the identical value. -/
theorem C8_value_round_trip (value_type : String) (v : PyValue)
    (h : valueMatches value_type v) (prev : Option PyValue) :
    (do
      let stored ← computationVariable_value_writer (some value_type) prev (some v)
      computationVariable_value_reader (some value_type) stored) =
      .ok (some v) := by
  rcases h with ⟨hvt, b, rfl⟩ | ⟨hvt, n, rfl⟩ | ⟨hvt, x, rfl⟩ |
    ⟨hvt, re, im, rfl⟩ | ⟨hvt, s, rfl⟩ <;> subst hvt <;> rfl

/-- Witness for C8: a complex value `3+4i` is stored as the pair
`(3.0, 4.0)` and read back as exactly `3+4i`. -/
theorem C8_value_round_trip_witness :
    valueMatches "complex" (.complex 3 4) ∧
      computationVariable_value_writer (some "complex") none (some (.complex 3 4)) =
        .ok (some (.tuple2 3 4)) ∧
      (do
        let stored ←
          computationVariable_value_writer (some "complex") none (some (.complex 3 4))
        computationVariable_value_reader (some "complex") stored) =
        .ok (some (.complex 3 4)) :=
  ⟨Or.inr (Or.inr (Or.inr (Or.inl ⟨rfl, 3, 4, rfl⟩))), rfl,
    C8_value_round_trip "complex" (.complex 3 4)
      (Or.inr (Or.inr (Or.inr (Or.inl ⟨rfl, 3, 4, rfl⟩)))) none⟩

/-! ## Symbolic.py: Computation evaluation state -/

/-- The fields of a `Computation` that its expression-evaluation methods
touch.  `original_expression` uses `""` for Python `None`/empty (both are
falsy in `if expression:`); `δ` is the type of evaluated
data-and-metadata results. -/
structure ComputationState (δ : Type) where
  original_expression : String
  error_text : Option String
  data_and_metadata : Option δ
  needs_parse : Bool
  needs_update : Bool
  evaluation_count_for_test : ℕ

/-- `Computation.__parse_expression` translated from the source.  The
execution of the assembled program happens in the external Python
interpreter (`exec`); its outcome — a `result` value or a raised
exception — is the `outcome` argument.  On failure the cached result is
cleared and `error_text` becomes the fixed string `"Execution Error"`; on
success the result is cached and `error_text` cleared; either way the
needs-parse flag clears.  A falsy (empty) expression leaves the state
untouched. -/
def computation_parse_expression {δ : Type} (s : ComputationState δ)
    (expression : String) (outcome : Except PyError δ) : ComputationState δ :=
  if expression = "" then s
  else
    match outcome with
    | .ok v =>
        { s with data_and_metadata := some v, error_text := none, needs_parse := false }
    | .error _ =>
        { s with data_and_metadata := none, error_text := some "Execution Error",
                 needs_parse := false }

/-- `Computation.evaluate` translated from the source: bumps the test
counter, clears `needs_update`, re-parses first when a re-parse is
pending (`outcome` is the external execution outcome it would observe),
and returns the cached result. -/
def computation_evaluate {δ : Type} (s : ComputationState δ)
    (outcome : Except PyError δ) : Option δ × ComputationState δ :=
  let s := { s with evaluation_count_for_test := s.evaluation_count_for_test + 1,
                    needs_update := false }
  let s :=
    if s.needs_parse then computation_parse_expression s s.original_expression outcome
    else s
  (s.data_and_metadata, s)

/-- C3: for every non-empty expression whose assembled program raises,
`__parse_expression` catches the failure, sets `error_text` to exactly
`"Execution Error"`, and clears the cached result, so a subsequent
`evaluate()` returns no value. -/
theorem C3_execution_error_handling (δ : Type) (s : ComputationState δ)
    (expression : String) (e : PyError) (hne : expression ≠ "") :
    (computation_parse_expression s expression (.error e)).error_text =
        some "Execution Error" ∧
      (computation_parse_expression s expression (.error e)).data_and_metadata = none ∧
      ∀ outcome2 : Except PyError δ,
        (computation_evaluate (computation_parse_expression s expression (.error e))
            outcome2).1 = none := by
  unfold computation_parse_expression
  rw [if_neg hne]
  exact ⟨rfl, rfl, fun _ => rfl⟩

/-- Witness for C3 at a concrete failing expression. -/
theorem C3_execution_error_handling_witness :
    ("undefined_name" ≠ "" ∧
      (computation_parse_expression ⟨"undefined_name", none, some 5, true, true, 0⟩
          "undefined_name" (.error (.nameError "undefined_name"))).error_text =
        some "Execution Error") ∧
      (computation_evaluate
          (computation_parse_expression ⟨"undefined_name", none, some 5, true, true, 0⟩
            "undefined_name" (.error (.nameError "undefined_name")))
          (.ok (7 : ℕ))).1 = none :=
  ⟨⟨by decide,
    (C3_execution_error_handling ℕ ⟨"undefined_name", none, some 5, true, true, 0⟩
      "undefined_name" (.nameError "undefined_name") (by decide)).1⟩,
    (C3_execution_error_handling ℕ ⟨"undefined_name", none, some 5, true, true, 0⟩
      "undefined_name" (.nameError "undefined_name") (by decide)).2.2 (.ok 7)⟩

/-- `Computation.begin_evaluate` translated from the source: the state is
the `__evaluating` flag; the result is `(returned value, new flag)`.  The
surrounding re-entrant lock only serializes access to the flag; the
sequential semantics is this function. -/
def computation_begin_evaluate (evaluating : Bool) : Bool × Bool :=
  (!evaluating, true)

/-- `Computation.end_evaluate` translated from the source: clears the
`__evaluating` flag unconditionally. -/
def computation_end_evaluate (_evaluating : Bool) : Bool := false

/-- C9: `begin_evaluate` returns true iff no evaluation was in flight at
the call, and marks one in flight either way; `end_evaluate` clears the
mark; hence two consecutive `begin_evaluate` calls return true then
false, and after `end_evaluate` the next `begin_evaluate` returns true
again. -/
theorem C9_begin_end_evaluate :
    ∀ evaluating : Bool,
      ((computation_begin_evaluate evaluating).1 = true ↔ evaluating = false) ∧
      (computation_begin_evaluate evaluating).2 = true ∧
      computation_end_evaluate evaluating = false ∧
      ((computation_begin_evaluate false).1 = true ∧
        (computation_begin_evaluate (computation_begin_evaluate false).2).1 = false) ∧
      (computation_begin_evaluate (computation_end_evaluate evaluating)).1 = true := by
  decide

/-! ## Symbolic.py: specifiers and the variable_type setter -/

/-- A Python specifier dictionary, restricted to the four keys the
repository reads and writes: `"version"`, `"type"`, `"uuid"` and
`"property"`.  A `none` field is an absent key. -/
structure Specifier where
  version : Option ℤ
  type : Option String
  uuid : Option String
  property : Option String
  deriving DecidableEq, Repr

/-- Python dict truthiness: a dict is falsy iff it has no keys. -/
def Specifier.isTruthy (s : Specifier) : Bool :=
  s.version.isSome || s.type.isSome || s.uuid.isSome || s.property.isSome

/-- Python's `a or b` where `a` is `self.specifier` (a dict or `None`)
and `b` a dict literal. -/
def pyOrSpecifier (a : Option Specifier) (dflt : Specifier) : Specifier :=
  match a with
  | some s => if s.isTruthy then s else dflt
  | none => dflt

/-- Python's `del specifier["uuid"]`: raises `KeyError` on an absent key. -/
def Specifier.delKeyUuid (s : Specifier) : Except PyError Specifier :=
  if s.uuid.isSome then .ok { s with uuid := none } else .error (.keyError "uuid")

/-- Python's `del specifier["property"]`: raises `KeyError` on an absent
key. -/
def Specifier.delKeyProperty (s : Specifier) : Except PyError Specifier :=
  if s.property.isSome then .ok { s with property := none }
  else .error (.keyError "property")

/-- `ComputationVariable.data_types` from the source. -/
def computationVariable_data_types : List String := ["data_item", "data", "display_data"]

/-- The source's `specifier.get("type") in ComputationVariable.data_types`
(`None in data_types` is false). -/
def specifierTypeInDataTypes (s : Specifier) : Bool :=
  match s.type with
  | some t => decide (t ∈ computationVariable_data_types)
  | none => false

/-- The dict literal `{"version": 1}` from the `variable_type` setter. -/
def specifierVersion1 : Specifier :=
  { version := some 1, type := none, uuid := none, property := none }

/-- The persisted fields of a `ComputationVariable` that its
`variable_type` accessors touch. -/
structure ComputationVariableState where
  name : Option String
  label : Option String
  value_type : Option String
  value : Option PyValue
  value_default : Option PyValue
  value_min : Option PyValue
  value_max : Option PyValue
  specifier : Option Specifier
  control_type : Option String
  deriving DecidableEq, Repr

/-- Python's `a or b` on optional strings (`None` and `""` are falsy). -/
def pyOrStr (a b : Option String) : Option String :=
  match a with
  | some s => if s = "" then b else some s
  | none => b

/-- The `variable_type` property getter translated from the source. -/
def ComputationVariableState.variableType (v : ComputationVariableState) : Option String :=
  match v.value_type with
  | some vt => some vt
  | none =>
    match v.specifier with
    | some s => pyOrStr s.property s.type
    | none => none

/-- `ComputationVariable.control_type_default` translated from the source. -/
def computationVariable_control_type_default (value_type : String) : Option String :=
  if value_type = "boolean" then some "checkbox"
  else if value_type = "integral" then some "slider"
  else if value_type = "real" then some "field"
  else if value_type = "complex" then some "field"
  else if value_type = "string" then some "field"
  else none

/-- The source's `value_type in ("region")`: `("region")` is the plain
string `"region"`, so Python performs a substring test, not a tuple
membership test. -/
def pyInRegionString (value_type : String) : Bool :=
  decide (value_type.toList <:+: "region".toList)

/-- The `variable_type` property setter translated from the source.
Returns the updated state and whether `variable_type_changed_event`
fired; dictionary deletions on absent keys raise `KeyError` exactly as
Python's `del` does, aborting the assignment mid-way (the scalar fields
already cleared, the specifier not yet stored, no event fired). -/
def computationVariable_set_variable_type (v : ComputationVariableState)
    (value_type : String) : Except PyError (ComputationVariableState × Bool) :=
  if some value_type = v.variableType then .ok (v, false)
  else if value_type ∈ ["boolean", "integral", "real", "complex", "string"] then
    let v := { v with specifier := none, value_type := some value_type,
                      control_type := computationVariable_control_type_default value_type }
    let v :=
      if value_type = "boolean" then { v with value_default := some (.bool true) }
      else if value_type = "integral" then { v with value_default := some (.int 0) }
      else if value_type = "real" then { v with value_default := some (.float 0) }
      else if value_type = "complex" then { v with value_default := some (.complex 0 0) }
      else { v with value_default := none }
    .ok ({ v with value_min := none, value_max := none }, true)
  else if value_type ∈ computationVariable_data_types then do
    let v := { v with value_type := none, control_type := none, value_default := none,
                      value_min := none, value_max := none }
    let specifier := pyOrSpecifier v.specifier specifierVersion1
    let specifier ←
      if !specifierTypeInDataTypes specifier then specifier.delKeyUuid
      else pure specifier
    let specifier := { specifier with type := some "data_item" }
    let specifier ←
      if value_type = "data" ∨ value_type = "display_data" then
        pure { specifier with property := some value_type }
      else specifier.delKeyProperty
    .ok ({ v with specifier := some specifier }, true)
  else if pyInRegionString value_type then do
    let v := { v with value_type := none, control_type := none, value_default := none,
                      value_min := none, value_max := none }
    let specifier := pyOrSpecifier v.specifier specifierVersion1
    let specifier := { specifier with type := some value_type }
    let specifier ← specifier.delKeyUuid
    let specifier ← specifier.delKeyProperty
    .ok ({ v with specifier := some specifier }, true)
  else .ok (v, true)

/-- A scalar-form variable: `value_type` `"real"`, no specifier. -/
def scalarRealVariable : ComputationVariableState :=
  { name := some "x", label := some "x", value_type := some "real",
    value := some (.float (3/2)), value_default := some (.float 0),
    value_min := some (.float 0), value_max := some (.float 10),
    specifier := none, control_type := some "field" }

/-- C5: contrary to the claim, assigning `variable_type = "data_item"` to
a scalar-form variable does not succeed: the fresh specifier
`{"version": 1}` has no `"uuid"` key, so the source's unconditional
`del specifier["uuid"]` raises `KeyError` (and `del specifier["property"]`
would likewise fail), aborting the assignment before the specifier is
stored or the event fires. -/
theorem C5_set_variable_type_key_error :
    computationVariable_set_variable_type scalarRealVariable "data_item" =
      .error (.keyError "uuid") := by
  rfl

/-! ## Symbolic.py: object-specifier resolution -/

section Resolution

/-- Owned-variable data relevant to specifier resolution: the variable's
own UUID and its (optional) reference specifier.  `Uuid` abstracts the
external `uuid.UUID` type. -/
structure CompVar (Uuid : Type) where
  uuid : Uuid
  specifier : Option Specifier

/-- What `ComputationContext.resolve_object_specifier` can return: a
host-context resolution (whose values `Bound` abstracts) or the matched
variable's `bound_variable` handle. -/
inductive ResolvedObject (Uuid Bound : Type)
  | fromContext (b : Bound)
  | boundVariable (v : CompVar Uuid)

variable {Uuid : Type} [DecidableEq Uuid] {Bound : Type}

/-- `Computation.resolve_variable` translated from the source:
`convert_back` models the external
`Converter.UuidToStringConverter().convert_back`; a falsy (absent or
empty) `uuid` entry or an unparseable string resolves no variable; the
loop returns the first owned variable with a matching UUID. -/
def computation_resolve_variable (convert_back : String → Option Uuid)
    (vars : List (CompVar Uuid)) (object_specifier : Specifier) :
    Option (CompVar Uuid) :=
  match object_specifier.uuid with
  | some uuid_str =>
    if uuid_str = "" then none
    else
      match convert_back uuid_str with
      | some u => vars.find? (fun v => decide (v.uuid = u))
      | none => none
  | none => none

/-- `ComputationContext.resolve_object_specifier` translated from the
source: no variable match delegates to the host context; a match whose
specifier is `None` returns the variable's bound handle; a match with a
non-null specifier returns `None`. -/
def computationContext_resolve_object_specifier (convert_back : String → Option Uuid)
    (context_resolve : Specifier → Option Bound)
    (vars : List (CompVar Uuid)) (object_specifier : Specifier) :
    Option (ResolvedObject Uuid Bound) :=
  match computation_resolve_variable convert_back vars object_specifier with
  | none => (context_resolve object_specifier).map ResolvedObject.fromContext
  | some var =>
    if var.specifier = none then some (.boundVariable var)
    else none

/-- C10: when the specifier's uuid matches an owned variable that has a
non-null specifier (reference form), resolution returns none — it
neither delegates to the host context nor returns a bound-variable
handle. -/
theorem C10_reference_variable_resolves_none (convert_back : String → Option Uuid)
    (context_resolve : Specifier → Option Bound)
    (vars : List (CompVar Uuid)) (object_specifier : Specifier)
    (v : CompVar Uuid)
    (hfind : computation_resolve_variable convert_back vars object_specifier = some v)
    (hspec : v.specifier ≠ none) :
    computationContext_resolve_object_specifier convert_back context_resolve vars
      object_specifier = none := by
  unfold computationContext_resolve_object_specifier
  rw [hfind]
  exact if_neg hspec

end Resolution

/-- A concrete reference-form variable and its specifier, for the C10
witness. -/
def referenceFormSpec : Specifier := ⟨some 1, some "data_item", some "1", none⟩

/-- A concrete owned variable in reference form, uuid 1. -/
def referenceFormVar : CompVar ℕ := ⟨1, some referenceFormSpec⟩

/-- Stand-in for the external uuid-string converter, defined on the
witness's single uuid string. -/
def uuidConvertBack : String → Option ℕ := fun s => if s = "1" then some 1 else none

/-- Witness for C10 at concrete data: one owned reference-form variable
matched by uuid, with a host context that would resolve anything. -/
theorem C10_reference_variable_resolves_none_witness :
    (computation_resolve_variable uuidConvertBack [referenceFormVar] referenceFormSpec =
        some referenceFormVar ∧
      referenceFormVar.specifier ≠ none) ∧
      computationContext_resolve_object_specifier uuidConvertBack
        (fun _ => some (99 : ℕ)) [referenceFormVar] referenceFormSpec = none :=
  ⟨⟨rfl, by simp [referenceFormVar]⟩,
    C10_reference_variable_resolves_none uuidConvertBack (fun _ => some (99 : ℕ))
      [referenceFormVar] referenceFormSpec referenceFormVar rfl
      (by simp [referenceFormVar])⟩

/-! ## Operation.py -/

/-- Numpy dtypes appearing in the embedded operations. -/
inductive Dtype
  | float64
  | complex128
  | int32
  | uint8
  deriving DecidableEq, Repr

/-- An n-dimensional numpy array, by value: shape and flat contents.
Shape entries are integers so they compare directly with the integer
height/width parameters.  `data.copy()` is the identity on this
value-level view. -/
structure NDArray where
  shape : List ℤ
  values : List ℚ
  deriving DecidableEq, Repr

/-- The external `DataItem.Calibration` value object: origin, scale,
units. -/
structure Calibration where
  origin : ℚ
  scale : ℚ
  units : String
  deriving DecidableEq, Repr

/-- The behavior of a registered `Operation` instance, as the
`OperationItem` dispatches to it.  Abstracts the concrete subclasses. -/
structure OperationBehavior where
  name : String
  processDataInPlace : NDArray → Except PyError NDArray
  getProcessedCalibrations :
    List ℤ → Dtype → List Calibration → Except PyError (List Calibration)
  getProcessedIntensityCalibration :
    List ℤ → Dtype → Calibration → Except PyError Calibration
  getProcessedDataShapeAndDtype : List ℤ → Dtype → Except PyError (List ℤ × Dtype)

/-- `OperationManager.build_operation` translated from the source: look
the id up in the registry, return its operation or `None`. -/
def operationManager_build_operation (registry : List (String × OperationBehavior))
    (operation_id : String) : Option OperationBehavior :=
  match registry.find? (fun p => p.1 == operation_id) with
  | some p => some p.2
  | none => none

/-- The fields of an `OperationItem` its construction and delegation
methods touch (parameter values and the bound graphic are not needed for
the claims settled here). -/
structure OperationItemState where
  operation : Option OperationBehavior
  name : String
  operation_id : String
  enabled : Bool

/-- `OperationItem.__init__` translated from the source: one chance to
find the behavior; an unregistered id leaves `operation` as `None` and
the placeholder display name. -/
def operationItem_init (registry : List (String × OperationBehavior))
    (operation_id : String) : OperationItemState :=
  let operation := operationManager_build_operation registry operation_id
  { operation := operation,
    name := match operation with
            | some op => op.name
            | none => "Unavailable Operation",
    operation_id := operation_id,
    enabled := true }

/-- `OperationItem.process_data` translated from the source: with no
operation, returns `data.copy()` — the same value. -/
def operationItem_process_data (operation : Option OperationBehavior)
    (data : NDArray) : Except PyError NDArray :=
  match operation with
  | some op => op.processDataInPlace data
  | none => .ok data

/-- `OperationItem.get_processed_calibrations` translated from the
source: pass-through when no operation. -/
def operationItem_get_processed_calibrations (operation : Option OperationBehavior)
    (data_shape : List ℤ) (data_dtype : Dtype)
    (source_calibrations : List Calibration) : Except PyError (List Calibration) :=
  match operation, data_shape, data_dtype with
  | some op, ds, dt => op.getProcessedCalibrations ds dt source_calibrations
  | none, _, _ => .ok source_calibrations

/-- `OperationItem.get_processed_intensity_calibration` translated from
the source.  Its fallback branch is `return source_calibrations`, a name
that is not defined in that method (only `intensity_calibration` is), so
with no operation the method raises `NameError` instead of passing the
intensity calibration through. -/
def operationItem_get_processed_intensity_calibration
    (operation : Option OperationBehavior) (data_shape : List ℤ) (data_dtype : Dtype)
    (intensity_calibration : Calibration) : Except PyError Calibration :=
  match operation, data_shape, data_dtype, intensity_calibration with
  | some op, ds, dt, ic => op.getProcessedIntensityCalibration ds dt ic
  | none, _, _, _ => .error (.nameError "source_calibrations")

/-- `OperationItem.get_processed_data_shape_and_dtype` translated from
the source: pass-through when no operation. -/
def operationItem_get_processed_data_shape_and_dtype
    (operation : Option OperationBehavior) (data_shape : List ℤ) (data_dtype : Dtype) :
    Except PyError (List ℤ × Dtype) :=
  match operation with
  | some op => op.getProcessedDataShapeAndDtype data_shape data_dtype
  | none => .ok (data_shape, data_dtype)

/-- C4: an `OperationItem` built with an unregistered id constructs fine,
reports the placeholder name, and passes data, calibrations and
shape/dtype through — but, contrary to the claim,
`get_processed_intensity_calibration` raises `NameError` on the undefined
name `source_calibrations` instead of returning its input. -/
theorem C4_unregistered_operation_behavior
    (registry : List (String × OperationBehavior)) (operation_id : String)
    (hunreg : ∀ p ∈ registry, p.1 ≠ operation_id) :
    (operationItem_init registry operation_id).operation = none ∧
      (operationItem_init registry operation_id).name = "Unavailable Operation" ∧
      (∀ data, operationItem_process_data
          (operationItem_init registry operation_id).operation data = .ok data) ∧
      (∀ ds dt cals, operationItem_get_processed_calibrations
          (operationItem_init registry operation_id).operation ds dt cals = .ok cals) ∧
      (∀ ds dt, operationItem_get_processed_data_shape_and_dtype
          (operationItem_init registry operation_id).operation ds dt = .ok (ds, dt)) ∧
      (∀ ds dt ic, operationItem_get_processed_intensity_calibration
          (operationItem_init registry operation_id).operation ds dt ic =
        .error (.nameError "source_calibrations")) := by
  have hop : operationManager_build_operation registry operation_id = none := by
    unfold operationManager_build_operation
    cases hfind : registry.find? (fun p => p.1 == operation_id) with
    | none => rfl
    | some p =>
      have hmem := List.mem_of_find?_eq_some hfind
      have hpred := List.find?_some hfind
      exact absurd (by simpa using hpred) (hunreg p hmem)
  refine ⟨?_, ?_, fun _ => ?_, fun _ _ _ => ?_, fun _ _ => ?_, fun _ _ _ => ?_⟩ <;>
    simp only [operationItem_init, hop] <;> rfl

/-- Witness for C4 at a concrete unregistered id. -/
theorem C4_unregistered_operation_behavior_witness :
    (∀ p ∈ ([] : List (String × OperationBehavior)), p.1 ≠ "missing-operation") ∧
      (operationItem_init [] "missing-operation").name = "Unavailable Operation" ∧
      operationItem_get_processed_intensity_calibration
          (operationItem_init [] "missing-operation").operation [2, 3] .float64
          ⟨0, 1, "nm"⟩ =
        .error (.nameError "source_calibrations") :=
  ⟨by simp,
    (C4_unregistered_operation_behavior [] "missing-operation" (by simp)).2.1,
    (C4_unregistered_operation_behavior [] "missing-operation" (by simp)).2.2.2.2.2
      [2, 3] .float64 ⟨0, 1, "nm"⟩⟩

/-- Modelled from the spec: `Image.is_shape_and_dtype_rgb` — RGB data is
unsigned-byte data whose trailing dimension holds the 3 colour
channels (the module `Image.py` is not part of the excerpted source). -/
def is_shape_and_dtype_rgb (data_shape : List ℤ) (data_dtype : Dtype) : Bool :=
  data_dtype == .uint8 && data_shape.getLastD 0 == 3

/-- Modelled from the spec: `Image.is_shape_and_dtype_rgba` — RGBA data
is unsigned-byte data whose trailing dimension holds the 4 colour/alpha
channels. -/
def is_shape_and_dtype_rgba (data_shape : List ℤ) (data_dtype : Dtype) : Bool :=
  data_dtype == .uint8 && data_shape.getLastD 0 == 4

/-- The attribute slots of a `Resample2dOperation`; `none` would be an
absent attribute, but `__init__` sets both to `0`. -/
structure Resample2dOperationState where
  height : Option ℤ
  width : Option ℤ
  deriving DecidableEq, Repr

/-- `Resample2dOperation.__init__` translated from the source: it sets
`self.width = 0` and `self.height = 0`, so both attributes are present
with value 0. -/
def resample2dOperation_init : Resample2dOperationState :=
  { height := some 0, width := some 0 }

/-- `Operation.get_property` translated from the source:
`getattr(self, property_id) if hasattr(self, property_id) else
default_value`; `attr` is the attribute slot for `property_id`. -/
def operation_get_property (attr : Option ℤ) (default_value : ℤ) : ℤ :=
  attr.getD default_value

/-- `Resample2dOperation.process_data_copy` translated from the source.
`scaled` is the external `Image.scaled`; shape indices `[0]`/`[1]` are
read with a list default that 2-D data never reaches. -/
def resample2dOperation_process_data_copy (scaled : NDArray → ℤ × ℤ → NDArray)
    (op : Resample2dOperationState) (data_copy : NDArray) : NDArray :=
  let height := operation_get_property op.height (data_copy.shape.getD 0 0)
  let width := operation_get_property op.width (data_copy.shape.getD 1 0)
  if data_copy.shape.getD 1 0 = width ∧ data_copy.shape.getD 0 0 = height then data_copy
  else scaled data_copy (height, width)

/-- `Resample2dOperation.get_processed_data_shape_and_dtype` translated
from the source. -/
def resample2dOperation_get_processed_data_shape_and_dtype
    (op : Resample2dOperationState) (data_shape : List ℤ) (data_dtype : Dtype) :
    List ℤ × Dtype :=
  let height := operation_get_property op.height (data_shape.getD 0 0)
  let width := operation_get_property op.width (data_shape.getD 1 0)
  if is_shape_and_dtype_rgba data_shape data_dtype ||
      is_shape_and_dtype_rgb data_shape data_dtype then
    ([height, width, data_shape.getLastD 0], data_dtype)
  else
    ([height, width], data_dtype)

/-- C6: contrary to the claim, a fresh `Resample2dOperation` whose
height/width were never set is not a no-op: `__init__` sets both
attributes to `0`, so `Operation.get_property` returns `0` — never the
data-shape default — and a 2-by-3 input is resampled to target `(0, 0)`;
the reported output shape is `(0, 0)`, not the input shape. -/
theorem C6_resample_unset_parameters_not_noop :
    resample2dOperation_get_processed_data_shape_and_dtype resample2dOperation_init
        [2, 3] .float64 = ([0, 0], .float64) ∧
      ([(0 : ℤ), 0], Dtype.float64) ≠ ([2, 3], Dtype.float64) ∧
      ∀ scaled,
        resample2dOperation_process_data_copy scaled resample2dOperation_init
            ⟨[2, 3], [0, 1, 2, 3, 4, 5]⟩ =
          scaled ⟨[2, 3], [0, 1, 2, 3, 4, 5]⟩ (0, 0) := by
  exact ⟨rfl, by decide, fun _ => rfl⟩

/-! ## Graphics.py: hit testing, over the reals

The hit tests take square roots (`math.sqrt`), so they are embedded over
`ℝ`; the part identifiers are the source's strings and a raised exception
is an `Except.error`. -/

noncomputable section HitTesting

open scoped Classical

/-- `Graphic.test_point` translated from the source: whether two widget
points are within `radius` of each other. -/
def graphic_test_point (p1 p2 : ℝ × ℝ) (radius : ℝ) : Bool :=
  decide (Real.sqrt ((p1.1 - p2.1) ^ 2 + (p1.2 - p2.2) ^ 2) < radius)

/-- `Graphic.get_closest_point_on_line` translated from the source.  The
source divides by `length` with no guard; when `length == 0` (degenerate
segment) Python raises `ZeroDivisionError` at `v[0] / length`, which the
first branch models. -/
def graphic_get_closest_point_on_line (start stop p : ℝ × ℝ) :
    Except PyError (ℝ × ℝ) :=
  let c := (p.1 - start.1, p.2 - start.2)
  let v := (stop.1 - start.1, stop.2 - start.2)
  let length := Real.sqrt (v.1 ^ 2 + v.2 ^ 2)
  if length = 0 then .error .zeroDivisionError
  else
    let v := (v.1 / length, v.2 / length)
    let t := v.1 * c.1 + v.2 * c.2
    if t < 0 then .ok start
    else if t > length then .ok stop
    else .ok (start.1 + v.1 * t, start.2 + v.2 * t)

/-- `Graphic.test_line` translated from the source. -/
def graphic_test_line (start stop p : ℝ × ℝ) (radius : ℝ) : Except PyError Bool := do
  let cp ← graphic_get_closest_point_on_line start stop p
  pure (decide (Real.sqrt ((p.1 - cp.1) ^ 2 + (p.2 - cp.2) ^ 2) < radius))

/-- `Graphic.test_inside_bounds` translated from the source (the
`radius` argument is unused there too). -/
def graphic_test_inside_bounds (bounds : (ℝ × ℝ) × (ℝ × ℝ)) (p : ℝ × ℝ)
    (_radius : ℝ) : Bool :=
  decide (p.1 > bounds.1.1 ∧ p.1 ≤ bounds.1.1 + bounds.2.1 ∧
    p.2 > bounds.1.2 ∧ p.2 ≤ bounds.1.2 + bounds.2.2)

/-- The external coordinate-mapping collaborator, restricted to the two
conversions hit testing uses. -/
structure WidgetMapping where
  mapPointImageNormToWidget : ℝ × ℝ → ℝ × ℝ
  mapSizeImageNormToWidget : ℝ × ℝ → ℝ × ℝ

/-- `RectangleGraphic.test` translated from the source. -/
def rectangleGraphic_test (mapping : WidgetMapping) (bounds : (ℝ × ℝ) × (ℝ × ℝ))
    (test_point : ℝ × ℝ) (move_only : Bool) : Except PyError (Option String) :=
  let origin := mapping.mapPointImageNormToWidget bounds.1
  let size := mapping.mapSizeImageNormToWidget bounds.2
  if !move_only && graphic_test_point origin test_point 4 then .ok (some "top-left")
  else if !move_only && graphic_test_point (origin.1, origin.2 + size.2) test_point 4 then
    .ok (some "top-right")
  else if !move_only &&
      graphic_test_point (origin.1 + size.1, origin.2 + size.2) test_point 4 then
    .ok (some "bottom-right")
  else if !move_only && graphic_test_point (origin.1 + size.1, origin.2) test_point 4 then
    .ok (some "bottom-left")
  else if graphic_test_inside_bounds (origin, size) test_point 4 then .ok (some "all")
  else .ok none

/-- `EllipseGraphic.test` translated from the source; its body is
identical to the rectangle test's. -/
def ellipseGraphic_test (mapping : WidgetMapping) (bounds : (ℝ × ℝ) × (ℝ × ℝ))
    (test_point : ℝ × ℝ) (move_only : Bool) : Except PyError (Option String) :=
  let origin := mapping.mapPointImageNormToWidget bounds.1
  let size := mapping.mapSizeImageNormToWidget bounds.2
  if !move_only && graphic_test_point origin test_point 4 then .ok (some "top-left")
  else if !move_only && graphic_test_point (origin.1, origin.2 + size.2) test_point 4 then
    .ok (some "top-right")
  else if !move_only &&
      graphic_test_point (origin.1 + size.1, origin.2 + size.2) test_point 4 then
    .ok (some "bottom-right")
  else if !move_only && graphic_test_point (origin.1 + size.1, origin.2) test_point 4 then
    .ok (some "bottom-left")
  else if graphic_test_inside_bounds (origin, size) test_point 4 then .ok (some "all")
  else .ok none

/-- `LineGraphic.test` translated from the source. -/
def lineGraphic_test (mapping : WidgetMapping) (start stop : ℝ × ℝ)
    (test_point : ℝ × ℝ) (move_only : Bool) : Except PyError (Option String) :=
  let p1 := mapping.mapPointImageNormToWidget start
  let p2 := mapping.mapPointImageNormToWidget stop
  if !move_only && graphic_test_point p1 test_point 4 then .ok (some "start")
  else if !move_only && graphic_test_point p2 test_point 4 then .ok (some "end")
  else do
    let hit ← graphic_test_line p1 p2 test_point 4
    if hit then pure (some "all") else pure none

/-- The identity widget mapping (image-normalized and widget coordinates
coincide). -/
def idWidgetMapping : WidgetMapping := ⟨fun q => q, fun q => q⟩

end HitTesting

/-- For a non-degenerate segment the closest-point computation cannot
divide by zero and always returns a point. -/
theorem graphic_get_closest_point_on_line_total (start stop p : ℝ × ℝ)
    (h : start ≠ stop) :
    ∃ q, graphic_get_closest_point_on_line start stop p = .ok q := by
  have hv : Real.sqrt ((stop.1 - start.1) ^ 2 + (stop.2 - start.2) ^ 2) ≠ 0 := by
    rw [Ne, Real.sqrt_eq_zero']
    intro hz
    apply h
    have hs1 : (stop.1 - start.1) ^ 2 = 0 :=
      le_antisymm (by nlinarith [sq_nonneg (stop.2 - start.2)]) (sq_nonneg _)
    have hs2 : (stop.2 - start.2) ^ 2 = 0 :=
      le_antisymm (by nlinarith [sq_nonneg (stop.1 - start.1)]) (sq_nonneg _)
    have h1 := sq_eq_zero_iff.mp hs1
    have h2 := sq_eq_zero_iff.mp hs2
    exact Prod.ext_iff.mpr ⟨by linarith, by linarith⟩
  simp only [graphic_get_closest_point_on_line]
  rw [if_neg hv]
  split_ifs <;> exact ⟨_, rfl⟩

/-- C7 (amended): rectangle and ellipse hit testing always return a part
or none, for every mapping, geometry and test point; line hit testing
does so whenever the mapped endpoints are distinct — with coincident
mapped endpoints it instead raises a division by zero (see the
counterexample). -/
theorem C7_hit_testing_total :
    (∀ mapping bounds test_point move_only, ∃ r,
        rectangleGraphic_test mapping bounds test_point move_only = .ok r) ∧
      (∀ mapping bounds test_point move_only, ∃ r,
        ellipseGraphic_test mapping bounds test_point move_only = .ok r) ∧
      (∀ mapping start stop test_point move_only,
        mapping.mapPointImageNormToWidget start ≠ mapping.mapPointImageNormToWidget stop →
        ∃ r, lineGraphic_test mapping start stop test_point move_only = .ok r) := by
  refine ⟨?_, ?_, ?_⟩
  · intro mapping bounds test_point move_only
    simp only [rectangleGraphic_test]
    split_ifs <;> exact ⟨_, rfl⟩
  · intro mapping bounds test_point move_only
    simp only [ellipseGraphic_test]
    split_ifs <;> exact ⟨_, rfl⟩
  · intro mapping start stop test_point move_only hne
    obtain ⟨q, hq⟩ :=
      graphic_get_closest_point_on_line_total
        (mapping.mapPointImageNormToWidget start)
        (mapping.mapPointImageNormToWidget stop) test_point hne
    have hline : graphic_test_line (mapping.mapPointImageNormToWidget start)
        (mapping.mapPointImageNormToWidget stop) test_point 4 =
        .ok (decide (Real.sqrt ((test_point.1 - q.1) ^ 2 +
          (test_point.2 - q.2) ^ 2) < 4)) := by
      simp only [graphic_test_line, hq]
      rfl
    simp only [lineGraphic_test]
    split_ifs
    · exact ⟨_, rfl⟩
    · exact ⟨_, rfl⟩
    · rw [hline]
      cases decide (Real.sqrt ((test_point.1 - q.1) ^ 2 + (test_point.2 - q.2) ^ 2) < 4) <;>
        exact ⟨_, rfl⟩

/-- Witness for C7 at a concrete non-degenerate line under the identity
mapping. -/
theorem C7_hit_testing_total_witness :
    idWidgetMapping.mapPointImageNormToWidget ((0 : ℝ), (0 : ℝ)) ≠
        idWidgetMapping.mapPointImageNormToWidget ((1 : ℝ), (1 : ℝ)) ∧
      ∃ r, lineGraphic_test idWidgetMapping ((0 : ℝ), (0 : ℝ)) ((1 : ℝ), (1 : ℝ))
        ((0 : ℝ), (0 : ℝ)) true = .ok r :=
  ⟨by simp [idWidgetMapping],
    C7_hit_testing_total.2.2 idWidgetMapping ((0 : ℝ), (0 : ℝ)) ((1 : ℝ), (1 : ℝ))
      ((0 : ℝ), (0 : ℝ)) true (by simp [idWidgetMapping])⟩

/-- C7 counterexample: hit-testing a `LineGraphic` whose start equals its
end does have a failure path — with the identity mapping, start = end =
(0,0) and test point (0,5), neither endpoint is within radius 4, the
closest-point projection divides by the zero segment length, and the test
raises `ZeroDivisionError` instead of returning a part or none. -/
theorem C7_degenerate_line_counterexample :
    lineGraphic_test idWidgetMapping ((0 : ℝ), (0 : ℝ)) ((0 : ℝ), (0 : ℝ))
      ((0 : ℝ), (5 : ℝ)) false = .error .zeroDivisionError := by
  have h25 : Real.sqrt (((0 : ℝ) - 0) ^ 2 + ((0 : ℝ) - 5) ^ 2) = 5 := by
    rw [show ((0 : ℝ) - 0) ^ 2 + ((0 : ℝ) - 5) ^ 2 = 5 ^ 2 by norm_num,
      Real.sqrt_sq (by norm_num : (0 : ℝ) ≤ 5)]
  have htp : graphic_test_point ((0 : ℝ), (0 : ℝ)) ((0 : ℝ), (5 : ℝ)) 4 = false := by
    simp only [graphic_test_point]
    rw [decide_eq_false_iff_not]
    rw [h25]
    norm_num
  have hlen : Real.sqrt (((0 : ℝ) - 0) ^ 2 + ((0 : ℝ) - 0) ^ 2) = 0 := by
    rw [show ((0 : ℝ) - 0) ^ 2 + ((0 : ℝ) - 0) ^ 2 = 0 by norm_num, Real.sqrt_zero]
  have hclosest : graphic_get_closest_point_on_line ((0 : ℝ), (0 : ℝ))
      ((0 : ℝ), (0 : ℝ)) ((0 : ℝ), (5 : ℝ)) = .error .zeroDivisionError := by
    simp only [graphic_get_closest_point_on_line]
    rw [if_pos hlen]
  have hline : graphic_test_line ((0 : ℝ), (0 : ℝ)) ((0 : ℝ), (0 : ℝ))
      ((0 : ℝ), (5 : ℝ)) 4 = .error .zeroDivisionError := by
    simp only [graphic_test_line, hclosest]
    rfl
  simp only [lineGraphic_test, idWidgetMapping, htp, Bool.not_false, Bool.true_and,
    Bool.and_false, if_false]
  rw [hline]
  rfl

end NionSwift
